import Mathlib

/-!
Shallow embedding of the cart and credential routes of `src/server.js`
(SHOP.CO API, Express + Mongoose).

Modelling conventions:
* JSON bodies parsed by `express.json()` cannot carry `undefined` or `NaN`,
  so fields taken verbatim from a body are modelled over their JSON-reachable
  domain: `id`, `name`, `size`, `color`, `image` as `Option _` where `none`
  stands for an absent field (JS `undefined`).
* Numeric quantity fields can become `NaN` at runtime (`undefined + n`,
  `Math.max(1, undefined)`), so quantities are modelled by `JNum` with an
  explicit `nan` constructor; `undef` is an absent field.
* JS strict equality `===` on the modelled domain: `undefined === undefined`
  is true, `NaN === x` is false for every `x` (itself included), numbers
  compare by value.  `Option.beq` realises `===` on `Option Int` /
  `Option String`; `idMatches` realises `item.id === parseInt(itemId)`
  where the parse result `none` stands for `NaN`.
* The Mongo collection is a list of documents; `findOne` is `List.find?`,
  `save` replaces the matching document or inserts a new one.
* `updatedAt` (a wall-clock timestamp refreshed on every cart mutation) is
  not modelled; no claim mentions it.  `createdAt` on users is modelled by
  an explicit `now` argument; the Mongo `_id` by the insertion index.
-/

namespace ShopCo

/-- A JS number-valued field as it can occur at runtime in this server:
absent (`undefined`), `NaN`, or an integer.  Fractional values never arise
in the quantity logic modelled here. -/
inductive JNum where
  | undef : JNum
  | nan : JNum
  | int : Int → JNum
deriving DecidableEq

/-- `q || 1` from `server.js` line 120: falsy (`undefined`, `NaN`, `0`)
becomes `1`, any other number is kept. -/
def JNum.orOne : JNum → Int
  | .int n => if n == 0 then 1 else n
  | _ => 1

/-- JS `+` of a possibly-absent number and an integer:
`undefined + n` and `NaN + n` are `NaN`. -/
def JNum.jsAdd : JNum → Int → JNum
  | .int m, n => .int (m + n)
  | _, _ => .nan

/-- `Math.max(1, q)` from `server.js` line 171: `Math.max(1, undefined)` and
`Math.max(1, NaN)` are `NaN`; on a number it clamps below at 1. -/
def JNum.jsMax1 : JNum → JNum
  | .int n => .int (max 1 n)
  | _ => .nan

/-- One entry of `cart.items` (cart schema, `server.js` lines 26-36).
Fields other than `quantity` are stored verbatim from the request body. -/
structure CartLineItem where
  id : Option Int
  name : Option String
  size : Option String
  color : Option String
  price : JNum
  quantity : JNum
  image : Option String
deriving DecidableEq

/-- The matching predicate of the `findIndex` at `server.js` lines 111-116:
`item.id === newItem.id && item.size === newItem.size &&
 item.color === newItem.color`. -/
def tripleMatches (it newItem : CartLineItem) : Bool :=
  it.id == newItem.id && it.size == newItem.size && it.color == newItem.color

/-- A cart document (`userId` unique key, `items` ordered). -/
structure CartDocument where
  userId : String
  items : List CartLineItem
deriving DecidableEq

/-- `Cart.findOne({ userId })`. -/
def findCart (store : List CartDocument) (uid : String) : Option CartDocument :=
  store.find? (fun c => c.userId == uid)

/-- `cart.save()`: update the existing document for this `userId`, or insert
the document when none exists. -/
def saveCart (store : List CartDocument) (c : CartDocument) : List CartDocument :=
  if store.any (fun d => d.userId == c.userId) then
    store.map (fun d => if d.userId == c.userId then c else d)
  else
    store ++ [c]

/-- GET `/api/cart/:userId` (`server.js` lines 75-97): return the items;
if no cart exists, create and persist an empty one first. -/
def getCart (store : List CartDocument) (uid : String) :
    List CartLineItem × List CartDocument :=
  match findCart store uid with
  | some cart => (cart.items, store)
  | none =>
    let cart : CartDocument := { userId := uid, items := [] }
    (cart.items, saveCart store cart)

/-- The in-memory item update of the add route (`server.js` lines 111-124):
`findIndex` on the triple; if found, `quantity += newItem.quantity || 1` on
that (first matching) item; otherwise `push(newItem)` verbatim. -/
def addToItems (newItem : CartLineItem) : List CartLineItem → List CartLineItem
  | [] => [newItem]
  | it :: rest =>
    if tripleMatches it newItem then
      { it with quantity := it.quantity.jsAdd newItem.quantity.orOne } :: rest
    else
      it :: addToItems newItem rest

/-- POST `/api/cart/:userId/add` (`server.js` lines 100-142): load or create
the cart, merge the incoming item, persist, return the items. -/
def addItem (store : List CartDocument) (uid : String) (newItem : CartLineItem) :
    List CartLineItem × List CartDocument :=
  let cart : CartDocument :=
    match findCart store uid with
    | none => { userId := uid, items := [newItem] }
    | some c => { c with items := addToItems newItem c.items }
  (cart.items, saveCart store cart)

/-- Outcome of the three routes that can answer 404. -/
inductive CartResult where
  | ok (items : List CartLineItem)
  | notFound (msg : String)
deriving DecidableEq

/-- `item.id === parseInt(itemId)`: the stored id `none` is `undefined`, the
parsed id `none` is `NaN`; `===` is true only for two equal numbers
(`undefined === NaN` and `NaN === NaN` are both false). -/
def idMatches (storedId : Option Int) (parsed : Option Int) : Bool :=
  match storedId, parsed with
  | some m, some n => m == n
  | _, _ => false

/-- Decimal digit value of a character, `none` on a non-digit. -/
def decDigitVal (c : Char) : Option Nat :=
  if c.toNat ≥ 48 && c.toNat ≤ 57 then some (c.toNat - 48) else none

/-- Hexadecimal digit value of a character, `none` on a non-digit. -/
def hexDigitVal (c : Char) : Option Nat :=
  if c.toNat ≥ 48 && c.toNat ≤ 57 then some (c.toNat - 48)
  else if c.toNat ≥ 97 && c.toNat ≤ 102 then some (c.toNat - 87)
  else if c.toNat ≥ 65 && c.toNat ≤ 70 then some (c.toNat - 55)
  else none

/-- Accumulate the maximal leading run of digits. -/
def digitsToNat (dv : Char → Option Nat) (radix : Nat) (acc : Nat) :
    List Char → Nat
  | [] => acc
  | c :: rest =>
    match dv c with
    | some d => digitsToNat dv radix (acc * radix + d) rest
    | none => acc

/-- JS whitespace skipped by `parseInt`. -/
def isJsSpace (c : Char) : Bool :=
  c == ' ' || c == '\t' || c == '\n' || c == '\r' ||
  c == Char.ofNat 11 || c == Char.ofNat 12

/-- `parseInt(s)` with no radix argument: skip whitespace, optional sign,
`0x`/`0X` switches to hexadecimal, then the maximal run of digits; `none`
(JS `NaN`) when no digit follows. -/
def parseIntJS (s : String) : Option Int :=
  let cs := s.toList.dropWhile isJsSpace
  let signed : Int × List Char :=
    match cs with
    | '-' :: rest => (-1, rest)
    | '+' :: rest => (1, rest)
    | _ => (1, cs)
  let body : (Char → Option Nat) × Nat × List Char :=
    match signed.2 with
    | '0' :: 'x' :: rest => (hexDigitVal, 16, rest)
    | '0' :: 'X' :: rest => (hexDigitVal, 16, rest)
    | _ => (decDigitVal, 10, signed.2)
  match body.2.2 with
  | [] => none
  | c :: _ =>
    match body.1 c with
    | none => none
    | some _ => some (signed.1 * Int.ofNat (digitsToNat body.1 body.2.1 0 body.2.2))

/-- The `findIndex`-then-assign step of the update route (`server.js`
lines 159-171): set the quantity of the first item whose id `===` the
parsed id to `Math.max(1, quantity)`; `none` when no item matches. -/
def setQtyAtFirst (parsed : Option Int) (q : JNum) :
    List CartLineItem → Option (List CartLineItem)
  | [] => none
  | it :: rest =>
    if idMatches it.id parsed then
      some ({ it with quantity := q.jsMax1 } :: rest)
    else
      (setQtyAtFirst parsed q rest).map (fun l => it :: l)

/-- PUT `/api/cart/:userId/update/:itemId` (`server.js` lines 145-187). -/
def updateQuantity (store : List CartDocument) (uid itemId : String) (q : JNum) :
    CartResult × List CartDocument :=
  match findCart store uid with
  | none => (.notFound "Cart not found", store)
  | some cart =>
    match setQtyAtFirst (parseIntJS itemId) q cart.items with
    | none => (.notFound "Item not found in cart", store)
    | some newItems =>
      let cart := { cart with items := newItems }
      (.ok cart.items, saveCart store cart)

/-- DELETE `/api/cart/:userId/remove/:itemId` (`server.js` lines 190-219):
`filter(item => item.id !== parseInt(itemId))`, keeping order. -/
def removeItem (store : List CartDocument) (uid itemId : String) :
    CartResult × List CartDocument :=
  match findCart store uid with
  | none => (.notFound "Cart not found", store)
  | some cart =>
    let cart := { cart with
      items := cart.items.filter (fun it => !(idMatches it.id (parseIntJS itemId))) }
    (.ok cart.items, saveCart store cart)

/-- DELETE `/api/cart/:userId/clear` (`server.js` lines 222-251). -/
def clearCart (store : List CartDocument) (uid : String) :
    CartResult × List CartDocument :=
  match findCart store uid with
  | none => (.notFound "Cart not found", store)
  | some cart =>
    let cart := { cart with items := ([] : List CartLineItem) }
    (.ok cart.items, saveCart store cart)

/-- One request against the cart collection. -/
inductive CartOp where
  | get (uid : String)
  | add (uid : String) (item : CartLineItem)
  | update (uid itemId : String) (q : JNum)
  | remove (uid itemId : String)
  | clear (uid : String)

/-- The store after handling one request. -/
def applyCartOp (store : List CartDocument) : CartOp → List CartDocument
  | .get uid => (getCart store uid).2
  | .add uid item => (addItem store uid item).2
  | .update uid itemId q => (updateQuantity store uid itemId q).2
  | .remove uid itemId => (removeItem store uid itemId).2
  | .clear uid => (clearCart store uid).2

/-- The store after a sequence of requests. -/
def runCartOps (store : List CartDocument) (ops : List CartOp) :
    List CartDocument :=
  ops.foldl applyCartOp store

/-- At most one line item per `(id, size, color)` triple: no later item
matches an earlier one. -/
def uniqTriples : List CartLineItem → Bool
  | [] => true
  | it :: rest => rest.all (fun b => !(tripleMatches b it)) && uniqTriples rest

/-- All carts in the store satisfy the per-triple uniqueness invariant. -/
def StoreInv (store : List CartDocument) : Prop :=
  ∀ c ∈ store, uniqTriples c.items = true

/-- A user document (user schema, `server.js` lines 46-61); `uid` models the
Mongo `_id`, assigned at insertion. -/
structure UserAccount where
  uid : Nat
  email : String
  password : String
  name : Option String
  createdAt : Nat
deriving DecidableEq

/-- Outcome of POST `/api/auth/register`. -/
inductive RegisterResult where
  | ok (userId : Nat)
  | alreadyExists
deriving DecidableEq

/-- Outcome of POST `/api/auth/login`; the success payload carries exactly
`id`, `email`, `name` (`server.js` lines 304-308) — no password field. -/
inductive LoginResult where
  | ok (id : Nat) (email : String) (name : Option String)
  | invalidCredentials
deriving DecidableEq

/-- POST `/api/auth/register` (`server.js` lines 256-285): reject when
`User.findOne({ email })` hits, else insert with `createdAt` (schema default
`Date.now`, here the explicit `now`) and return the new `_id`. -/
def register (store : List UserAccount) (email password : String)
    (name : Option String) (now : Nat) : RegisterResult × List UserAccount :=
  match store.find? (fun u => u.email == email) with
  | some _ => (.alreadyExists, store)
  | none =>
    let user : UserAccount :=
      { uid := store.length, email := email, password := password,
        name := name, createdAt := now }
    (.ok user.uid, store ++ [user])

/-- POST `/api/auth/login` (`server.js` lines 288-317):
`User.findOne({ email, password })` matches both fields exactly. -/
def login (store : List UserAccount) (email password : String) : LoginResult :=
  match store.find? (fun u => u.email == email && u.password == password) with
  | some u => .ok u.uid u.email u.name
  | none => .invalidCredentials

/-! ### Sample data for witnesses -/

/-- The §8 scenario item: id 7, size M, color red, quantity 2. -/
def sampleItem : CartLineItem :=
  { id := some 7, name := some "Tee", size := some "M", color := some "red",
    price := .int 10, quantity := .int 2, image := none }

/-- A second §8 scenario item with the same triple and quantity 3. -/
def sampleItemMore : CartLineItem :=
  { id := some 7, name := none, size := some "M", color := some "red",
    price := .undef, quantity := .int 3, image := none }

/-- A cart for user "u1" holding `sampleItem`. -/
def sampleCart : CartDocument := { userId := "u1", items := [sampleItem] }

/-- A one-cart store. -/
def sampleStore : List CartDocument := [sampleCart]

/-- A registered account. -/
def sampleUser : UserAccount :=
  { uid := 0, email := "a@b.c", password := "pw", name := some "A", createdAt := 5 }

/-! ### Lemmas about the add-route merge -/

theorem tripleMatches_setQty_left (it b : CartLineItem) (q : JNum) :
    tripleMatches { it with quantity := q } b = tripleMatches it b := rfl

theorem tripleMatches_setQty_right (b it : CartLineItem) (q : JNum) :
    tripleMatches b { it with quantity := q } = tripleMatches b it := rfl

theorem tripleMatches_symm (a b : CartLineItem) :
    tripleMatches a b = tripleMatches b a := by
  unfold tripleMatches
  rw [@Bool.beq_comm _ _ _ a.id b.id, @Bool.beq_comm _ _ _ a.size b.size,
    @Bool.beq_comm _ _ _ a.color b.color]

theorem addToItems_of_no_match (n : CartLineItem) (items : List CartLineItem)
    (h : ∀ it ∈ items, tripleMatches it n = false) :
    addToItems n items = items ++ [n] := by
  induction items with
  | nil => rfl
  | cons it rest ih =>
    have hit : tripleMatches it n = false := h it (List.mem_cons_self it rest)
    simp only [addToItems, hit, Bool.false_eq_true, if_false, List.cons_append,
      List.cons.injEq, true_and]
    exact ih (fun a ha => h a (List.mem_cons_of_mem _ ha))

theorem addToItems_of_match (n : CartLineItem) (items : List CartLineItem)
    (hm : ∃ it ∈ items, tripleMatches it n = true) :
    ∃ pre it post,
      items = pre ++ it :: post ∧
      tripleMatches it n = true ∧
      (∀ p ∈ pre, tripleMatches p n = false) ∧
      addToItems n items =
        pre ++ { it with quantity := it.quantity.jsAdd n.quantity.orOne } :: post := by
  induction items with
  | nil => simp at hm
  | cons a rest ih =>
    cases ha : tripleMatches a n with
    | true =>
      exact ⟨[], a, rest, rfl, ha, by simp, by simp [addToItems, ha]⟩
    | false =>
      have hm' : ∃ it ∈ rest, tripleMatches it n = true := by
        rcases hm with ⟨it, hit, h⟩
        rcases List.mem_cons.mp hit with rfl | h2
        · rw [ha] at h; cases h
        · exact ⟨it, h2, h⟩
      rcases ih hm' with ⟨pre, it, post, he, h1, h2, h3⟩
      refine ⟨a :: pre, it, post, by rw [he]; rfl, h1, ?_, ?_⟩
      · intro p hp
        rcases List.mem_cons.mp hp with rfl | hp2
        · exact ha
        · exact h2 p hp2
      · simp only [addToItems, ha, Bool.false_eq_true, if_false, h3, List.cons_append]

/-- Claim C1, counterexample: AddItem with a fresh triple and a zero (falsy)
quantity appends the item verbatim — the stored quantity is 0, not the
default 1 the claim states. -/
theorem c1_counterexample :
    (addItem [{ userId := "u1", items := [] }] "u1"
        { id := some 1, name := none, size := none, color := none,
          price := .undef, quantity := .int 0, image := none }).1 =
      [{ id := some 1, name := none, size := none, color := none,
         price := .undef, quantity := .int 0, image := none }] ∧
    (addItem [{ userId := "u1", items := [] }] "u1"
        { id := some 1, name := none, size := none, color := none,
          price := .undef, quantity := .int 0, image := none }).1 ≠
      [{ id := some 1, name := none, size := none, color := none,
         price := .undef, quantity := .int 1, image := none }] := by
  exact ⟨by decide, by decide⟩

/-- Claim C1 (amended): for every userId and every item whose triple matches
no existing line item in the cart, AddItem appends exactly one new line item
stored verbatim — its quantity is the supplied quantity field as given,
including an absent or zero quantity; the `|| 1` default applies only on the
increment path. -/
theorem c1_addItem_new_triple_appends_verbatim (store : List CartDocument)
    (uid : String) (n : CartLineItem) :
    (findCart store uid = none → (addItem store uid n).1 = [n]) ∧
    (∀ c, findCart store uid = some c →
      (∀ it ∈ c.items, tripleMatches it n = false) →
      (addItem store uid n).1 = c.items ++ [n]) := by
  constructor
  · intro h
    simp [addItem, h]
  · intro c hc hno
    simp [addItem, hc, addToItems_of_no_match n c.items hno]

/-- Witness for the amended C1: on an empty store the appended item is stored
verbatim, and on `sampleStore` an item with a new triple is appended. -/
theorem c1_addItem_new_triple_appends_verbatim_witness :
    (addItem ([] : List CartDocument) "u9"
        { id := some 1, name := none, size := none, color := none,
          price := .undef, quantity := .int 0, image := none }).1 =
      [{ id := some 1, name := none, size := none, color := none,
         price := .undef, quantity := .int 0, image := none }] :=
  (c1_addItem_new_triple_appends_verbatim [] "u9"
    { id := some 1, name := none, size := none, color := none,
      price := .undef, quantity := .int 0, image := none }).1 rfl

/-- Claim C3: AddItem on a cart holding a line item with the incoming triple
increments the first such item's quantity by the incoming quantity (1 when
falsy) and leaves the sequence length unchanged. -/
theorem c3_addItem_merge (store : List CartDocument) (uid : String)
    (n : CartLineItem) (c : CartDocument)
    (hc : findCart store uid = some c)
    (hm : ∃ it ∈ c.items, tripleMatches it n = true) :
    (addItem store uid n).1.length = c.items.length ∧
    ∃ pre it post,
      c.items = pre ++ it :: post ∧
      tripleMatches it n = true ∧
      (∀ p ∈ pre, tripleMatches p n = false) ∧
      (addItem store uid n).1 =
        pre ++ { it with quantity := it.quantity.jsAdd n.quantity.orOne } :: post ∧
      ∀ m : Int, it.quantity = .int m →
        it.quantity.jsAdd n.quantity.orOne = .int (m + n.quantity.orOne) := by
  rcases addToItems_of_match n c.items hm with ⟨pre, it, post, he, h1, h2, h3⟩
  have hadd : (addItem store uid n).1 = addToItems n c.items := by
    simp [addItem, hc]
  constructor
  · rw [hadd, h3, he]
    simp
  · exact ⟨pre, it, post, he, h1, h2, by rw [hadd, h3],
      fun m hm2 => by rw [hm2]; rfl⟩

/-- Witness for C3: the §8 scenario — adding quantity 3 onto the stored
quantity-2 item with the same triple keeps the length at 1. -/
theorem c3_addItem_merge_witness :
    (addItem sampleStore "u1" sampleItemMore).1.length = sampleCart.items.length :=
  (c3_addItem_merge sampleStore "u1" sampleItemMore sampleCart rfl
    ⟨sampleItem, by decide, by decide⟩).1

/-! ### Lemmas about the update-route first-match assignment -/

theorem setQtyAtFirst_eq_none_iff (parsed : Option Int) (q : JNum)
    (items : List CartLineItem) :
    setQtyAtFirst parsed q items = none ↔
      ∀ it ∈ items, idMatches it.id parsed = false := by
  induction items with
  | nil => simp [setQtyAtFirst]
  | cons a rest ih =>
    cases ha : idMatches a.id parsed with
    | true =>
      simp only [setQtyAtFirst, ha, if_true]
      constructor
      · intro h; cases h
      · intro h
        have := h a (List.mem_cons_self a rest)
        rw [ha] at this; cases this
    | false =>
      simp only [setQtyAtFirst, ha, Bool.false_eq_true, if_false,
        Option.map_eq_none']
      constructor
      · intro h it hit
        rcases List.mem_cons.mp hit with rfl | h2
        · exact ha
        · exact (ih.mp h) it h2
      · intro h
        exact ih.mpr (fun it hit => h it (List.mem_cons_of_mem _ hit))

theorem setQtyAtFirst_of_match (parsed : Option Int) (q : JNum)
    (items : List CartLineItem)
    (hm : ∃ it ∈ items, idMatches it.id parsed = true) :
    ∃ pre it post,
      items = pre ++ it :: post ∧
      idMatches it.id parsed = true ∧
      (∀ p ∈ pre, idMatches p.id parsed = false) ∧
      setQtyAtFirst parsed q items =
        some (pre ++ { it with quantity := q.jsMax1 } :: post) := by
  induction items with
  | nil => simp at hm
  | cons a rest ih =>
    cases ha : idMatches a.id parsed with
    | true =>
      exact ⟨[], a, rest, rfl, ha, by simp, by simp [setQtyAtFirst, ha]⟩
    | false =>
      have hm' : ∃ it ∈ rest, idMatches it.id parsed = true := by
        rcases hm with ⟨it, hit, h⟩
        rcases List.mem_cons.mp hit with rfl | h2
        · rw [ha] at h; cases h
        · exact ⟨it, h2, h⟩
      rcases ih hm' with ⟨pre, it, post, he, h1, h2, h3⟩
      refine ⟨a :: pre, it, post, by rw [he]; rfl, h1, ?_, ?_⟩
      · intro p hp
        rcases List.mem_cons.mp hp with rfl | hp2
        · exact ha
        · exact h2 p hp2
      · simp only [setQtyAtFirst, ha, Bool.false_eq_true, if_false, h3,
          Option.map_some', List.cons_append]

/-! ### The per-triple uniqueness invariant -/

theorem uniqTriples_iff_pairwise (l : List CartLineItem) :
    uniqTriples l = true ↔ l.Pairwise (fun a b => tripleMatches b a = false) := by
  induction l with
  | nil => simp [uniqTriples]
  | cons a rest ih =>
    simp only [uniqTriples, Bool.and_eq_true, List.all_eq_true,
      Bool.not_eq_eq_eq_not, Bool.not_true, List.pairwise_cons, ih]

theorem pairwise_triple_set_qty_middle (pre : List CartLineItem)
    (it : CartLineItem) (post : List CartLineItem) (q : JNum)
    (h : (pre ++ it :: post).Pairwise (fun a b => tripleMatches b a = false)) :
    (pre ++ { it with quantity := q } :: post).Pairwise
      (fun a b => tripleMatches b a = false) := by
  rw [List.pairwise_append] at h ⊢
  obtain ⟨h1, h2, h3⟩ := h
  rw [List.pairwise_cons] at h2 ⊢
  refine ⟨h1, ⟨?_, h2.2⟩, ?_⟩
  · intro b hb
    rw [tripleMatches_setQty_right]
    exact h2.1 b hb
  · intro a ha b hb
    rcases List.mem_cons.mp hb with rfl | hb2
    · rw [tripleMatches_setQty_left]
      exact h3 a ha it (List.mem_cons_self it post)
    · exact h3 a ha b (List.mem_cons_of_mem _ hb2)

theorem uniqTriples_addToItems (n : CartLineItem) (items : List CartLineItem)
    (h : uniqTriples items = true) : uniqTriples (addToItems n items) = true := by
  rw [uniqTriples_iff_pairwise] at h ⊢
  by_cases hm : ∃ it ∈ items, tripleMatches it n = true
  · rcases addToItems_of_match n items hm with ⟨pre, it, post, he, _, _, h3⟩
    rw [h3]
    rw [he] at h
    exact pairwise_triple_set_qty_middle pre it post _ h
  · have hno : ∀ it ∈ items, tripleMatches it n = false := by
      intro it hit
      cases hb : tripleMatches it n with
      | false => rfl
      | true => exact absurd ⟨it, hit, hb⟩ hm
    rw [addToItems_of_no_match n items hno, List.pairwise_append]
    refine ⟨h, List.pairwise_singleton _ _, ?_⟩
    intro a ha b hb
    rcases List.mem_singleton.mp hb with rfl
    rw [tripleMatches_symm]
    exact hno a ha

theorem uniqTriples_setQtyAtFirst (parsed : Option Int) (q : JNum)
    (items l : List CartLineItem)
    (hl : setQtyAtFirst parsed q items = some l)
    (h : uniqTriples items = true) : uniqTriples l = true := by
  by_cases hm : ∃ it ∈ items, idMatches it.id parsed = true
  · rcases setQtyAtFirst_of_match parsed q items hm with ⟨pre, it, post, he, _, _, h3⟩
    rw [h3] at hl
    cases hl
    rw [uniqTriples_iff_pairwise] at h ⊢
    rw [he] at h
    exact pairwise_triple_set_qty_middle pre it post _ h
  · have hno : ∀ it ∈ items, idMatches it.id parsed = false := by
      intro it hit
      cases hb : idMatches it.id parsed with
      | false => rfl
      | true => exact absurd ⟨it, hit, hb⟩ hm
    rw [(setQtyAtFirst_eq_none_iff parsed q items).mpr hno] at hl
    cases hl

theorem uniqTriples_filter (p : CartLineItem → Bool) (items : List CartLineItem)
    (h : uniqTriples items = true) : uniqTriples (items.filter p) = true := by
  rw [uniqTriples_iff_pairwise] at h ⊢
  exact List.Pairwise.sublist (List.filter_sublist items) h

/-! ### Store-level reachability -/

theorem mem_saveCart (store : List CartDocument) (c d : CartDocument)
    (hd : d ∈ saveCart store c) : d ∈ store ∨ d = c := by
  unfold saveCart at hd
  by_cases hany : store.any (fun e => e.userId == c.userId) = true
  · rw [if_pos hany] at hd
    rcases List.mem_map.mp hd with ⟨e, he, heq⟩
    by_cases he2 : (e.userId == c.userId) = true
    · right
      rw [← heq, if_pos he2]
    · left
      rw [← heq, if_neg he2]
      exact he
  · rw [if_neg hany] at hd
    rcases List.mem_append.mp hd with h1 | h1
    · left; exact h1
    · right; exact List.mem_singleton.mp h1

theorem storeInv_saveCart (store : List CartDocument) (h : StoreInv store)
    (c : CartDocument) (hc : uniqTriples c.items = true) :
    StoreInv (saveCart store c) := by
  intro d hd
  rcases mem_saveCart store c d hd with h1 | rfl
  · exact h d h1
  · exact hc

theorem storeInv_applyCartOp (store : List CartDocument) (h : StoreInv store)
    (op : CartOp) : StoreInv (applyCartOp store op) := by
  cases op with
  | get uid =>
    simp only [applyCartOp, getCart]
    cases hc : findCart store uid with
    | some c => exact h
    | none =>
      exact storeInv_saveCart store h { userId := uid, items := [] } rfl
  | add uid item =>
    simp only [applyCartOp, addItem]
    cases hc : findCart store uid with
    | none =>
      exact storeInv_saveCart store h { userId := uid, items := [item] } rfl
    | some c =>
      exact storeInv_saveCart store h
        { c with items := addToItems item c.items }
        (uniqTriples_addToItems item c.items
          (h c (List.mem_of_find?_eq_some hc)))
  | update uid itemId q =>
    simp only [applyCartOp, updateQuantity]
    split
    · exact h
    · next c hc =>
      split
      · exact h
      · next l hs =>
        exact storeInv_saveCart store h { c with items := l }
          (uniqTriples_setQtyAtFirst (parseIntJS itemId) q c.items l hs
            (h c (List.mem_of_find?_eq_some hc)))
  | remove uid itemId =>
    simp only [applyCartOp, removeItem]
    cases hc : findCart store uid with
    | none => exact h
    | some c =>
      exact storeInv_saveCart store h
        { c with
          items := c.items.filter (fun it => !(idMatches it.id (parseIntJS itemId))) }
        (uniqTriples_filter _ c.items (h c (List.mem_of_find?_eq_some hc)))
  | clear uid =>
    simp only [applyCartOp, clearCart]
    cases hc : findCart store uid with
    | none => exact h
    | some c =>
      exact storeInv_saveCart store h { c with items := [] } rfl

theorem storeInv_runCartOps (store : List CartDocument) (h : StoreInv store)
    (ops : List CartOp) : StoreInv (runCartOps store ops) := by
  induction ops generalizing store with
  | nil => exact h
  | cons op rest ih => exact ih _ (storeInv_applyCartOp store h op)

/-- Claim C2: every cart document reachable from the empty store by any
sequence of the five cart operations holds at most one line item per
`(id, size, color)` triple. -/
theorem c2_reachable_cart_uniq_triples (ops : List CartOp) (c : CartDocument)
    (hc : c ∈ runCartOps [] ops) : uniqTriples c.items = true :=
  storeInv_runCartOps [] (fun _ hm => absurd hm (List.not_mem_nil _)) ops c hc

/-- Witness for C2: after two adds with the same triple, the one reachable
cart satisfies the invariant. -/
theorem c2_reachable_cart_uniq_triples_witness :
    uniqTriples
      (CartDocument.items
        { userId := "u1",
          items := [{ sampleItem with quantity := JNum.int 5 }] }) = true :=
  c2_reachable_cart_uniq_triples
    [CartOp.add "u1" sampleItem, CartOp.add "u1" sampleItemMore]
    { userId := "u1", items := [{ sampleItem with quantity := JNum.int 5 }] }
    (by decide)

/-! ### Branch equations for the route handlers -/

theorem getCart_eq_of_none (store : List CartDocument) (uid : String)
    (hc : findCart store uid = none) :
    getCart store uid = ([], saveCart store { userId := uid, items := [] }) := by
  unfold getCart
  simp only [hc]

theorem getCart_eq_of_some (store : List CartDocument) (uid : String)
    (c : CartDocument) (hc : findCart store uid = some c) :
    getCart store uid = (c.items, store) := by
  unfold getCart
  simp only [hc]

theorem addItem_eq_of_none (store : List CartDocument) (uid : String)
    (n : CartLineItem) (hc : findCart store uid = none) :
    addItem store uid n =
      ([n], saveCart store { userId := uid, items := [n] }) := by
  unfold addItem
  simp only [hc]

theorem addItem_eq_of_some (store : List CartDocument) (uid : String)
    (n : CartLineItem) (c : CartDocument) (hc : findCart store uid = some c) :
    addItem store uid n =
      (addToItems n c.items,
        saveCart store { c with items := addToItems n c.items }) := by
  unfold addItem
  simp only [hc]

theorem updateQuantity_eq_of_none (store : List CartDocument)
    (uid itemId : String) (q : JNum) (hc : findCart store uid = none) :
    updateQuantity store uid itemId q = (.notFound "Cart not found", store) := by
  unfold updateQuantity
  simp only [hc]

theorem updateQuantity_eq_of_noitem (store : List CartDocument)
    (uid itemId : String) (q : JNum) (c : CartDocument)
    (hc : findCart store uid = some c)
    (hs : setQtyAtFirst (parseIntJS itemId) q c.items = none) :
    updateQuantity store uid itemId q =
      (.notFound "Item not found in cart", store) := by
  unfold updateQuantity
  simp only [hc, hs]

theorem updateQuantity_eq_of_found (store : List CartDocument)
    (uid itemId : String) (q : JNum) (c : CartDocument) (l : List CartLineItem)
    (hc : findCart store uid = some c)
    (hs : setQtyAtFirst (parseIntJS itemId) q c.items = some l) :
    updateQuantity store uid itemId q =
      (.ok l, saveCart store { c with items := l }) := by
  unfold updateQuantity
  simp only [hc, hs]

theorem removeItem_eq_of_none (store : List CartDocument) (uid itemId : String)
    (hc : findCart store uid = none) :
    removeItem store uid itemId = (.notFound "Cart not found", store) := by
  unfold removeItem
  simp only [hc]

theorem removeItem_eq_of_some (store : List CartDocument) (uid itemId : String)
    (c : CartDocument) (hc : findCart store uid = some c) :
    removeItem store uid itemId =
      (.ok (c.items.filter (fun it => !(idMatches it.id (parseIntJS itemId)))),
        saveCart store
          { c with
            items := c.items.filter
              (fun it => !(idMatches it.id (parseIntJS itemId))) }) := by
  unfold removeItem
  simp only [hc]

theorem clearCart_eq_of_none (store : List CartDocument) (uid : String)
    (hc : findCart store uid = none) :
    clearCart store uid = (.notFound "Cart not found", store) := by
  unfold clearCart
  simp only [hc]

theorem clearCart_eq_of_some (store : List CartDocument) (uid : String)
    (c : CartDocument) (hc : findCart store uid = some c) :
    clearCart store uid =
      (.ok [], saveCart store { c with items := [] }) := by
  unfold clearCart
  simp only [hc]

/-! ### Persistence: a saved cart is found again -/

theorem find?_map_replace (store : List CartDocument) (c : CartDocument)
    (h : store.any (fun d => d.userId == c.userId) = true) :
    (store.map (fun d => if d.userId == c.userId then c else d)).find?
      (fun d => d.userId == c.userId) = some c := by
  induction store with
  | nil => cases h
  | cons d rest ih =>
    by_cases hd : (d.userId == c.userId) = true
    · simp only [List.map_cons, if_pos hd]
      rw [List.find?_cons_of_pos _ (by simp)]
    · simp only [List.map_cons, if_neg hd]
      rw [List.find?_cons_of_neg _ (by simpa using hd)]
      apply ih
      rw [List.any_cons] at h
      rcases Bool.or_eq_true_iff.mp h with h1 | h1
      · exact absurd h1 hd
      · exact h1

theorem find?_append_single (store : List CartDocument) (c : CartDocument)
    (h : store.any (fun d => d.userId == c.userId) = false) :
    (store ++ [c]).find? (fun d => d.userId == c.userId) = some c := by
  induction store with
  | nil =>
    simp only [List.nil_append]
    rw [List.find?_cons_of_pos _ (by simp)]
  | cons d rest ih =>
    rw [List.any_cons, Bool.or_eq_false_iff] at h
    simp only [List.cons_append]
    rw [List.find?_cons_of_neg _ (by simp [h.1])]
    exact ih h.2

theorem findCart_saveCart_self (store : List CartDocument) (c : CartDocument) :
    findCart (saveCart store c) c.userId = some c := by
  unfold findCart saveCart
  by_cases hany : store.any (fun d => d.userId == c.userId) = true
  · rw [if_pos hany]
    exact find?_map_replace store c hany
  · rw [if_neg hany]
    exact find?_append_single store c (Bool.eq_false_iff.mpr hany)

theorem findCart_some_userId (store : List CartDocument) (uid : String)
    (c : CartDocument) (hc : findCart store uid = some c) : c.userId = uid := by
  have := List.find?_some hc
  exact beq_iff_eq.mp this

/-- Claim C4: on an existing cart holding an item with the parsed id,
UpdateQuantity sets the first such item's quantity to `max 1 q` — a zero or
negative request stores exactly 1, with no upper bound. -/
theorem c4_updateQuantity_clamps (store : List CartDocument)
    (uid itemId : String) (n : Int) (c : CartDocument)
    (hc : findCart store uid = some c)
    (hm : ∃ it ∈ c.items, idMatches it.id (parseIntJS itemId) = true) :
    ∃ pre it post,
      c.items = pre ++ it :: post ∧
      idMatches it.id (parseIntJS itemId) = true ∧
      (∀ p ∈ pre, idMatches p.id (parseIntJS itemId) = false) ∧
      (updateQuantity store uid itemId (.int n)).1 =
        .ok (pre ++ { it with quantity := .int (max 1 n) } :: post) := by
  rcases setQtyAtFirst_of_match (parseIntJS itemId) (.int n) c.items hm with
    ⟨pre, it, post, he, h1, h2, h3⟩
  refine ⟨pre, it, post, he, h1, h2, ?_⟩
  rw [updateQuantity_eq_of_found store uid itemId (.int n) c _ hc h3]
  rfl

/-- Witness for C4: requesting quantity 0 on the stored id-7 item stores
`max 1 0 = 1`. -/
theorem c4_updateQuantity_clamps_witness :
    findCart sampleStore "u1" = some sampleCart ∧
    (max 1 (0 : Int)) = 1 ∧
    ∃ pre it post,
      sampleCart.items = pre ++ it :: post ∧
      idMatches it.id (parseIntJS "7") = true ∧
      (∀ p ∈ pre, idMatches p.id (parseIntJS "7") = false) ∧
      (updateQuantity sampleStore "u1" "7" (.int 0)).1 =
        .ok (pre ++ { it with quantity := .int (max 1 0) } :: post) :=
  ⟨rfl, by decide,
    c4_updateQuantity_clamps sampleStore "u1" "7" 0 sampleCart rfl
      ⟨sampleItem, by decide, by decide⟩⟩

/-- Claim C5: UpdateQuantity answers NotFound exactly when the cart is
missing or no stored item's id matches the parsed itemId, and on every such
failure the store is left unchanged. -/
theorem c5_updateQuantity_notFound_iff (store : List CartDocument)
    (uid itemId : String) (q : JNum) :
    ((∃ msg, (updateQuantity store uid itemId q).1 = .notFound msg) ↔
      (findCart store uid = none ∨
        ∃ c, findCart store uid = some c ∧
          ∀ it ∈ c.items, idMatches it.id (parseIntJS itemId) = false)) ∧
    ((∃ msg, (updateQuantity store uid itemId q).1 = .notFound msg) →
      (updateQuantity store uid itemId q).2 = store) := by
  cases hc : findCart store uid with
  | none =>
    rw [updateQuantity_eq_of_none store uid itemId q hc]
    exact ⟨⟨fun _ => Or.inl rfl, fun _ => ⟨"Cart not found", rfl⟩⟩, fun _ => rfl⟩
  | some c =>
    cases hs : setQtyAtFirst (parseIntJS itemId) q c.items with
    | none =>
      rw [updateQuantity_eq_of_noitem store uid itemId q c hc hs]
      refine ⟨⟨fun _ => Or.inr ⟨c, rfl, ?_⟩,
        fun _ => ⟨"Item not found in cart", rfl⟩⟩, fun _ => rfl⟩
      exact (setQtyAtFirst_eq_none_iff _ _ _).mp hs
    | some l =>
      rw [updateQuantity_eq_of_found store uid itemId q c l hc hs]
      constructor
      · constructor
        · rintro ⟨msg, hmsg⟩
          cases hmsg
        · rintro (h1 | ⟨c2, hc2, hall⟩)
          · cases h1
          · cases hc2
            have := (setQtyAtFirst_eq_none_iff (parseIntJS itemId) q c.items).mpr hall
            rw [this] at hs
            cases hs
      · rintro ⟨msg, hmsg⟩
        cases hmsg

/-- Witness for C5: updating a nonexistent item id answers NotFound and
leaves the one-cart store untouched. -/
theorem c5_updateQuantity_notFound_iff_witness :
    (updateQuantity sampleStore "u1" "99" (.int 4)).1 =
      CartResult.notFound "Item not found in cart" ∧
    (updateQuantity sampleStore "u1" "99" (.int 4)).2 = sampleStore := by
  have h := (c5_updateQuantity_notFound_iff sampleStore "u1" "99" (.int 4)).2
    ⟨"Item not found in cart", by decide⟩
  exact ⟨by decide, h⟩

/-- Claim C6: RemoveItem on an existing cart keeps exactly the line items
whose id does not `===` the parsed itemId (so every size/color variant of
that id is deleted), is a no-op success when no item matches, and answers
NotFound exactly when no cart document exists. -/
theorem c6_removeItem_spec (store : List CartDocument) (uid itemId : String) :
    ((∃ msg, (removeItem store uid itemId).1 = .notFound msg) ↔
      findCart store uid = none) ∧
    (∀ c, findCart store uid = some c →
      (removeItem store uid itemId).1 =
        .ok (c.items.filter (fun it => !(idMatches it.id (parseIntJS itemId)))) ∧
      (∀ it, it ∈ c.items.filter (fun b => !(idMatches b.id (parseIntJS itemId))) ↔
        (it ∈ c.items ∧ idMatches it.id (parseIntJS itemId) = false)) ∧
      ((∀ it ∈ c.items, idMatches it.id (parseIntJS itemId) = false) →
        (removeItem store uid itemId).1 = .ok c.items)) := by
  cases hc : findCart store uid with
  | none =>
    rw [removeItem_eq_of_none store uid itemId hc]
    refine ⟨⟨fun _ => rfl, fun _ => ⟨"Cart not found", rfl⟩⟩, ?_⟩
    rintro c hcc
    cases hcc
  | some c =>
    rw [removeItem_eq_of_some store uid itemId c hc]
    refine ⟨⟨?_, ?_⟩, ?_⟩
    · rintro ⟨msg, hmsg⟩
      cases hmsg
    · rintro h1
      cases h1
    · rintro c2 hc2
      cases hc2
      refine ⟨rfl, ?_, ?_⟩
      · intro it
        simp [List.mem_filter]
      · intro hall
        have heq : c.items.filter
            (fun it => !(idMatches it.id (parseIntJS itemId))) = c.items :=
          List.filter_eq_self.mpr (fun a ha => by simp [hall a ha])
        rw [heq]

/-- Witness for C6: removing id 7 deletes the only line item; removing the
absent id 99 afterwards is a successful no-op. -/
theorem c6_removeItem_spec_witness :
    (removeItem sampleStore "u1" "7").1 = CartResult.ok [] ∧
    (removeItem sampleStore "u1" "99").1 = CartResult.ok sampleCart.items := by
  have h1 := ((c6_removeItem_spec sampleStore "u1" "7").2 sampleCart rfl).1
  have h2 := ((c6_removeItem_spec sampleStore "u1" "99").2 sampleCart rfl).2.2
    (by decide)
  exact ⟨by rw [h1]; decide, h2⟩

/-- Claim C7: GetCart on a missing cart returns the empty sequence and
persists an empty document, while ClearCart on the same state answers
NotFound; ClearCart on an existing cart empties `items` and the document
remains findable. -/
theorem c7_cart_lifecycle_asymmetry (store : List CartDocument) (uid : String) :
    (findCart store uid = none →
      (getCart store uid).1 = [] ∧
      findCart (getCart store uid).2 uid = some { userId := uid, items := [] } ∧
      clearCart store uid = (.notFound "Cart not found", store)) ∧
    (∀ c, findCart store uid = some c →
      (clearCart store uid).1 = .ok [] ∧
      findCart (clearCart store uid).2 uid =
        some { userId := uid, items := [] }) := by
  constructor
  · intro hc
    rw [getCart_eq_of_none store uid hc, clearCart_eq_of_none store uid hc]
    exact ⟨rfl, findCart_saveCart_self store { userId := uid, items := [] }, rfl⟩
  · intro c hc
    rw [clearCart_eq_of_some store uid c hc]
    refine ⟨rfl, ?_⟩
    have hu := findCart_some_userId store uid c hc
    rw [← hu]
    exact findCart_saveCart_self store { c with items := [] }

/-- Witness for C7: on the empty store, user "u9" gets an auto-created empty
cart but ClearCart fails; on `sampleStore`, ClearCart empties the cart and
the document persists. -/
theorem c7_cart_lifecycle_asymmetry_witness :
    (getCart [] "u9").1 = [] ∧
    findCart (getCart [] "u9").2 "u9" = some { userId := "u9", items := [] } ∧
    clearCart [] "u9" = (.notFound "Cart not found", []) ∧
    (clearCart sampleStore "u1").1 = CartResult.ok [] ∧
    findCart (clearCart sampleStore "u1").2 "u1" =
      some { userId := "u1", items := [] } := by
  obtain ⟨h1, h2, h3⟩ := (c7_cart_lifecycle_asymmetry [] "u9").1 rfl
  obtain ⟨h4, h5⟩ := (c7_cart_lifecycle_asymmetry sampleStore "u1").2 sampleCart rfl
  exact ⟨h1, h2, h3, h4, h5⟩

/-- Claim C8: Register answers AlreadyExists exactly when some stored account
has the given email (case-sensitive string equality), leaving the store
untouched; otherwise it appends a new account whose `createdAt` is the
creation instant and returns the newly assigned identifier. -/
theorem c8_register_spec (store : List UserAccount) (email password : String)
    (name : Option String) (now : Nat) :
    ((∃ u ∈ store, u.email = email) →
      register store email password name now = (.alreadyExists, store)) ∧
    ((∀ u ∈ store, u.email ≠ email) →
      register store email password name now =
        (.ok store.length,
          store ++ [{ uid := store.length, email := email, password := password,
                      name := name, createdAt := now }])) := by
  unfold register
  cases hf : store.find? (fun u => u.email == email) with
  | some u =>
    constructor
    · intro _
      rfl
    · intro h
      have hp := List.find?_some hf
      have hmem := List.mem_of_find?_eq_some hf
      rw [beq_iff_eq] at hp
      exact absurd hp (h u hmem)
  | none =>
    constructor
    · rintro ⟨u, hu, he⟩
      rw [List.find?_eq_none] at hf
      exact absurd (beq_iff_eq.mpr he) (hf u hu)
    · intro _
      rfl

/-- Witness for C8: re-registering `sampleUser.email` is rejected with the
store untouched; registering a fresh email appends the account with the
supplied creation time. -/
theorem c8_register_spec_witness :
    register [sampleUser] "a@b.c" "other" none 9 =
      (RegisterResult.alreadyExists, [sampleUser]) ∧
    register [sampleUser] "x@y.z" "npw" (some "X") 9 =
      (RegisterResult.ok 1,
        [sampleUser,
         { uid := 1, email := "x@y.z", password := "npw", name := some "X",
           createdAt := 9 }]) := by
  have h1 := (c8_register_spec [sampleUser] "a@b.c" "other" none 9).1
    ⟨sampleUser, by decide, by decide⟩
  have h2 := (c8_register_spec [sampleUser] "x@y.z" "npw" (some "X") 9).2
    (by decide)
  exact ⟨h1, h2⟩

/-- Claim C9: Login succeeds exactly when some stored account matches both
email and password by string equality, and the success payload is the first
such account's identifier, email and name — `LoginResult.ok` has no password
field, so the password is never echoed; any mismatch yields
InvalidCredentials. -/
theorem c9_login_spec (store : List UserAccount) (email password : String) :
    ((∃ u ∈ store, u.email = email ∧ u.password = password) ↔
      ∃ i e n, login store email password = .ok i e n) ∧
    (∀ i e n, login store email password = .ok i e n →
      ∃ u ∈ store, u.email = email ∧ u.password = password ∧
        i = u.uid ∧ e = u.email ∧ n = u.name) ∧
    ((∀ u ∈ store, ¬(u.email = email ∧ u.password = password)) →
      login store email password = .invalidCredentials) := by
  unfold login
  cases hf : store.find? (fun u => u.email == email && u.password == password) with
  | some u =>
    have hp := List.find?_some hf
    have hmem := List.mem_of_find?_eq_some hf
    rw [Bool.and_eq_true, beq_iff_eq, beq_iff_eq] at hp
    refine ⟨⟨fun _ => ⟨u.uid, u.email, u.name, rfl⟩, fun _ => ⟨u, hmem, hp⟩⟩,
      ?_, ?_⟩
    · intro i e n h
      injection h with h1 h2 h3
      exact ⟨u, hmem, hp.1, hp.2, h1.symm, h2.symm, h3.symm⟩
    · intro h
      exact absurd hp (h u hmem)
  | none =>
    rw [List.find?_eq_none] at hf
    refine ⟨⟨?_, ?_⟩, ?_, fun _ => rfl⟩
    · rintro ⟨u, hu, he, hpw⟩
      refine absurd ?_ (hf u hu)
      rw [Bool.and_eq_true, beq_iff_eq, beq_iff_eq]
      exact ⟨he, hpw⟩
    · rintro ⟨i, e, n, h⟩
      cases h
    · intro i e n h
      cases h

/-- Witness for C9: the right email with the wrong password fails with
InvalidCredentials; the right pair succeeds with id, email and name. -/
theorem c9_login_spec_witness :
    login [sampleUser] "a@b.c" "wrong" = LoginResult.invalidCredentials ∧
    login [sampleUser] "a@b.c" "pw" =
      LoginResult.ok sampleUser.uid sampleUser.email sampleUser.name := by
  have h1 := (c9_login_spec [sampleUser] "a@b.c" "wrong").2.2
    (by decide)
  exact ⟨h1, by decide⟩

theorem idMatches_nan (storedId : Option Int) : idMatches storedId none = false := by
  cases storedId <;> rfl

/-- Claim C10: when `parseInt` fails on the itemId path segment (`NaN`), the
parsed value `===`-matches no stored id, so on an existing cart
UpdateQuantity answers item-NotFound with the store unchanged, and
RemoveItem succeeds returning the items unchanged. -/
theorem c10_parse_failure_behaviour (store : List CartDocument)
    (uid itemId : String) (q : JNum) (c : CartDocument)
    (hp : parseIntJS itemId = none)
    (hc : findCart store uid = some c) :
    (∀ it ∈ c.items, idMatches it.id (parseIntJS itemId) = false) ∧
    (updateQuantity store uid itemId q).1 = .notFound "Item not found in cart" ∧
    (updateQuantity store uid itemId q).2 = store ∧
    (removeItem store uid itemId).1 = .ok c.items := by
  have hall : ∀ it ∈ c.items, idMatches it.id (parseIntJS itemId) = false := by
    intro it _
    rw [hp]
    exact idMatches_nan it.id
  have hnone := (setQtyAtFirst_eq_none_iff (parseIntJS itemId) q c.items).mpr hall
  have hupd := updateQuantity_eq_of_noitem store uid itemId q c hc hnone
  have hrem := removeItem_eq_of_some store uid itemId c hc
  have hfil : c.items.filter
      (fun it => !(idMatches it.id (parseIntJS itemId))) = c.items :=
    List.filter_eq_self.mpr (fun a ha => by simp [hall a ha])
  refine ⟨hall, ?_, ?_, ?_⟩
  · rw [hupd]
  · rw [hupd]
  · rw [hrem, hfil]

/-- Witness for C10: the path segment "abc" does not parse, so update answers
NotFound and remove leaves the single-item cart as it was. -/
theorem c10_parse_failure_behaviour_witness :
    (updateQuantity sampleStore "u1" "abc" (.int 3)).1 =
      CartResult.notFound "Item not found in cart" ∧
    (removeItem sampleStore "u1" "abc").1 = CartResult.ok sampleCart.items := by
  obtain ⟨_, h2, _, h4⟩ :=
    c10_parse_failure_behaviour sampleStore "u1" "abc" (.int 3) sampleCart
      (by decide) rfl
  exact ⟨h2, h4⟩

end ShopCo
